import Mathlib

/-!
Verification of the exchange-connector core of `barter-data-rs`
(`src/exchange/mod.rs`): the `ExchangeId` registry with its canonical
string representation and capability predicates, and the default methods
of the `Connector` trait (`ping_interval`, `expected_responses`,
`subscription_timeout`), together with the `Display` and
`From<ExchangeId> for Exchange` implementations and the serde
`snake_case` wire token.
-/

/-- The `ExchangeId` enum from `src/exchange/mod.rs`, variants in Rust
declaration order (the derived `Ord` compares by this order). -/
inductive ExchangeId where
  | BinanceFuturesUsd
  | BinanceSpot
  | Bitfinex
  | Coinbase
  | GateioFuturesBtc
  | GateioFuturesUsd
  | GateioSpot
  | Kraken
  | Okx
deriving DecidableEq, Repr, Fintype

/-- `ExchangeId::as_str`: the canonical string of each variant, one match
arm per variant, transcribed in the source's arm order. -/
def ExchangeId.as_str : ExchangeId → String
  | .BinanceSpot => "binance_spot"
  | .BinanceFuturesUsd => "binance_futures_usd"
  | .Bitfinex => "bitfinex"
  | .Coinbase => "coinbase"
  | .GateioSpot => "gateio_spot"
  | .GateioFuturesUsd => "gateio_futures_usd"
  | .GateioFuturesBtc => "gateio_futures_btc"
  | .Kraken => "kraken"
  | .Okx => "okx"

/-- `ExchangeId::supports_spot`: `false` for `BinanceFuturesUsd`, `true`
for every other variant (the source's wildcard arm). -/
def ExchangeId.supports_spot : ExchangeId → Bool
  | .BinanceFuturesUsd => false
  | _ => true

/-- `ExchangeId::supports_futures`: `true` for `BinanceFuturesUsd` and
`Okx`, `false` for every other variant (the source's wildcard arm). -/
def ExchangeId.supports_futures : ExchangeId → Bool
  | .BinanceFuturesUsd => true
  | .Okx => true
  | _ => false

/-- All `ExchangeId` variants, in declaration order. -/
def ExchangeId.variants : List ExchangeId :=
  [.BinanceFuturesUsd, .BinanceSpot, .Bitfinex, .Coinbase, .GateioFuturesBtc,
   .GateioFuturesUsd, .GateioSpot, .Kraken, .Okx]

/-- Lookup of a variant from its canonical string: the external inverse of
`as_str` (first variant whose `as_str` matches). -/
def ExchangeId.from_str (s : String) : Option ExchangeId :=
  ExchangeId.variants.find? (fun v => v.as_str == s)

/-- A character permitted in a lowercase snake_case identifier: a
lowercase ASCII letter or an underscore. -/
def isSnakeChar (c : Char) : Bool :=
  c.isLower || c == '_'

/-- A non-empty lowercase snake_case string: every character is a
lowercase ASCII letter or underscore, and the first is a letter. -/
def isSnakeCase (s : String) : Bool :=
  match s.data with
  | [] => false
  | c :: cs => c.isLower && cs.all isSnakeChar

/-- The discriminant of each variant under Rust declaration order; the
derived `Ord` on `ExchangeId` compares these. -/
def ExchangeId.ctorIdx : ExchangeId → Nat
  | .BinanceFuturesUsd => 0
  | .BinanceSpot => 1
  | .Bitfinex => 2
  | .Coinbase => 3
  | .GateioFuturesBtc => 4
  | .GateioFuturesUsd => 5
  | .GateioSpot => 6
  | .Kraken => 7
  | .Okx => 8

/-- The derived strict order on `ExchangeId` (declaration order). -/
def ExchangeId.lt (a b : ExchangeId) : Bool :=
  a.ctorIdx < b.ctorIdx

/-- Byte-wise lexicographic strict order on character lists (agrees with
Rust's `str` ordering on ASCII strings). -/
def lexLt : List Char → List Char → Bool
  | [], [] => false
  | [], _ :: _ => true
  | _ :: _, [] => false
  | a :: as, b :: bs =>
    if a < b then true
    else if b < a then false
    else lexLt as bs

/-- Lexicographic strict order on strings. -/
def strLexLt (a b : String) : Bool :=
  lexLt a.data b.data

/-- The Rust variant identifier of each `ExchangeId` variant, as written
in the enum declaration. -/
def ExchangeId.variantName : ExchangeId → String
  | .BinanceFuturesUsd => "BinanceFuturesUsd"
  | .BinanceSpot => "BinanceSpot"
  | .Bitfinex => "Bitfinex"
  | .Coinbase => "Coinbase"
  | .GateioFuturesBtc => "GateioFuturesBtc"
  | .GateioFuturesUsd => "GateioFuturesUsd"
  | .GateioSpot => "GateioSpot"
  | .Kraken => "Kraken"
  | .Okx => "Okx"

/-- serde's `RenameRule::SnakeCase` on a character list: an underscore is
inserted before every uppercase character except at index 0, and every
character is lowercased. The `first` flag records whether we are at
index 0. -/
def snakeCaseChars : List Char → Bool → List Char
  | [], _ => []
  | c :: cs, first =>
    if c.isUpper then
      (if first then [c.toLower] else ['_', c.toLower]) ++ snakeCaseChars cs false
    else
      c :: snakeCaseChars cs false

/-- serde's `rename_all = "snake_case"` rule applied to an identifier. -/
def snakeCaseRename (s : String) : String :=
  ⟨snakeCaseChars s.data true⟩

/-- The serde wire token of a variant: its identifier renamed by
`rename_all = "snake_case"` (the derived `Serialize`). -/
def ExchangeId.serializeToken (e : ExchangeId) : String :=
  snakeCaseRename e.variantName

/-- The derived `Deserialize`: maps a wire token back to the variant
whose serialized token equals it, if any. -/
def ExchangeId.deserializeToken (s : String) : Option ExchangeId :=
  ExchangeId.variants.find? (fun v => v.serializeToken == s)

/-- Shallow embedding of the external `barter_integration::model::Exchange`
identity newtype: it wraps the string it is constructed from
(`Exchange::from(&str)`). -/
structure Exchange where
  name : String
deriving DecidableEq, Repr

/-- `Exchange::from(&str)`: wraps the given string. -/
def Exchange.fromString (s : String) : Exchange :=
  ⟨s⟩

/-- The `impl From<ExchangeId> for Exchange`:
`Exchange::from(exchange_id.as_str())`. -/
def ExchangeId.toExchange (e : ExchangeId) : Exchange :=
  Exchange.fromString e.as_str

/-- The `impl Display for ExchangeId`: `write!(f, "{}", self.as_str())`,
so the rendered string is exactly `as_str` with no decoration. -/
def ExchangeId.displayString (e : ExchangeId) : String :=
  e.as_str

/-- Rust's `std::time::Duration`: whole seconds plus a sub-second
nanosecond part. -/
structure Duration where
  secs : Nat
  nanos : Nat
deriving DecidableEq, Repr

/-- `Duration::from_secs`. -/
def Duration.from_secs (s : Nat) : Duration :=
  ⟨s, 0⟩

/-- `DEFAULT_SUBSCRIPTION_TIMEOUT: Duration = Duration::from_secs(10)`. -/
def DEFAULT_SUBSCRIPTION_TIMEOUT : Duration :=
  Duration.from_secs 10

/-- The transport message type (`WsMessage`), abstracted to its payload. -/
structure WsMessage where
  payload : String
deriving DecidableEq, Repr

/-- `PingInterval` from `src/exchange/mod.rs`: a recurring timer period
(abstracted to its tick period) paired with a zero-argument keepalive
message constructor. -/
structure PingInterval where
  interval : Nat
  ping : Unit → WsMessage

/-- Minimal model of `barter_integration::model::Instrument` (external):
base asset, quote asset and instrument kind tag. -/
structure Instrument where
  base : String
  quote : String
  kind : Nat
deriving DecidableEq, Repr

/-- Modelled from the spec: `crate::subscription::Map<T>` is code of this
repository not under `src/`. The spec describes the instrument map
supplied to subscription validation as holding one entry per distinct
instrument, keyed per subscription; we model it as an association list
from subscription key to value with no duplicate keys and no duplicate
values. `map.0.len()` is the number of entries. -/
structure Map (α : Type) where
  entries : List (Nat × α)
  nodupKeys : (entries.map Prod.fst).Nodup
  nodupValues : (entries.map Prod.snd).Nodup

/-- The empty instrument map. -/
def Map.empty (α : Type) : Map α :=
  ⟨[], List.nodup_nil, List.nodup_nil⟩

/-- The number of distinct instrument values held in a map. -/
def Map.distinctValues {α : Type} [DecidableEq α] (m : Map α) : Nat :=
  (m.entries.map Prod.snd).dedup.length

/-- Default `Connector::ping_interval`: `None`. -/
def Connector.ping_interval : Option PingInterval :=
  none

/-- Default `Connector::expected_responses`: `map.0.len()`. -/
def Connector.expected_responses (map : Map Instrument) : Nat :=
  map.entries.length

/-- Default `Connector::subscription_timeout`:
`DEFAULT_SUBSCRIPTION_TIMEOUT`. -/
def Connector.subscription_timeout : Duration :=
  DEFAULT_SUBSCRIPTION_TIMEOUT

/-- C1: for every `ExchangeId` variant, `as_str()` is non-empty,
lowercase snake_case, the variant-to-string mapping is injective, and
looking the string back up through `from_str` returns the original
variant. -/
theorem exchangeId_as_str_canonical_injective :
    (∀ e : ExchangeId, 0 < e.as_str.length ∧ isSnakeCase e.as_str = true) ∧
    (∀ a b : ExchangeId, a.as_str = b.as_str → a = b) ∧
    (∀ e : ExchangeId, ExchangeId.from_str e.as_str = some e) := by
  refine ⟨by decide, by decide, by decide⟩

/-- C1 witness: the properties instantiated at `Kraken`, with the
injectivity hypothesis discharged concretely. -/
theorem exchangeId_as_str_canonical_injective_witness :
    (0 < (ExchangeId.Kraken).as_str.length ∧
      isSnakeCase (ExchangeId.Kraken).as_str = true) ∧
    ExchangeId.Kraken = ExchangeId.Kraken ∧
    ExchangeId.from_str (ExchangeId.Kraken).as_str = some ExchangeId.Kraken :=
  ⟨exchangeId_as_str_canonical_injective.1 ExchangeId.Kraken,
   exchangeId_as_str_canonical_injective.2.1 ExchangeId.Kraken ExchangeId.Kraken (by decide),
   exchangeId_as_str_canonical_injective.2.2 ExchangeId.Kraken⟩

/-- C2: the full capability table — `supports_spot` is `false` only for
the futures-only USD-margined variant `BinanceFuturesUsd` and `true` for
all others; `supports_futures` is `true` only for `BinanceFuturesUsd`
and the multi-asset exchange `Okx` and `false` for all others. -/
theorem exchangeId_capability_table :
    ExchangeId.supports_spot .BinanceFuturesUsd = false ∧
    ExchangeId.supports_spot .BinanceSpot = true ∧
    ExchangeId.supports_spot .Bitfinex = true ∧
    ExchangeId.supports_spot .Coinbase = true ∧
    ExchangeId.supports_spot .GateioFuturesBtc = true ∧
    ExchangeId.supports_spot .GateioFuturesUsd = true ∧
    ExchangeId.supports_spot .GateioSpot = true ∧
    ExchangeId.supports_spot .Kraken = true ∧
    ExchangeId.supports_spot .Okx = true ∧
    ExchangeId.supports_futures .BinanceFuturesUsd = true ∧
    ExchangeId.supports_futures .BinanceSpot = false ∧
    ExchangeId.supports_futures .Bitfinex = false ∧
    ExchangeId.supports_futures .Coinbase = false ∧
    ExchangeId.supports_futures .GateioFuturesBtc = false ∧
    ExchangeId.supports_futures .GateioFuturesUsd = false ∧
    ExchangeId.supports_futures .GateioSpot = false ∧
    ExchangeId.supports_futures .Kraken = false ∧
    ExchangeId.supports_futures .Okx = true := by
  decide

/-- C4: `supports_spot` and `supports_futures` are total over the
variant set and at least one of the two is `true` for every variant. -/
theorem exchangeId_supports_spot_or_futures_total :
    ∀ e : ExchangeId, (e.supports_spot || e.supports_futures) = true := by
  decide

/-- C3: the default `Connector::expected_responses` returns the number of
distinct instruments in the supplied map, for any map size from 0
upward, and 0 on the empty map. -/
theorem connector_expected_responses_distinct_instruments :
    (∀ m : Map Instrument, Connector.expected_responses m = m.distinctValues) ∧
    Connector.expected_responses (Map.empty Instrument) = 0 := by
  constructor
  · intro m
    unfold Connector.expected_responses Map.distinctValues
    rw [List.dedup_eq_self.mpr m.nodupValues, List.length_map]
  · rfl

/-- C5: the default `Connector::subscription_timeout` is exactly
`Duration::from_secs(10)`: ten whole seconds, zero nanoseconds. -/
theorem connector_subscription_timeout_default_ten_seconds :
    Connector.subscription_timeout = Duration.from_secs 10 ∧
    Connector.subscription_timeout.secs = 10 ∧
    Connector.subscription_timeout.nanos = 0 := by
  exact ⟨rfl, rfl, rfl⟩

/-- C6: `From<ExchangeId> for Exchange` is determined solely by
`as_str()` — the converted value is exactly `Exchange::from(as_str())` —
and the conversion is injective (lossless). -/
theorem exchangeId_to_exchange_lossless :
    (∀ e : ExchangeId, e.toExchange = Exchange.fromString e.as_str) ∧
    (∀ a b : ExchangeId, a.toExchange = b.toExchange → a = b) := by
  refine ⟨fun e => rfl, by decide⟩

/-- C6 witness: the conversion evaluated at `Okx`, with the injectivity
hypothesis discharged concretely. -/
theorem exchangeId_to_exchange_lossless_witness :
    (ExchangeId.Okx).toExchange = Exchange.fromString (ExchangeId.Okx).as_str ∧
    ExchangeId.Okx = ExchangeId.Okx :=
  ⟨exchangeId_to_exchange_lossless.1 ExchangeId.Okx,
   exchangeId_to_exchange_lossless.2 ExchangeId.Okx ExchangeId.Okx (by decide)⟩

/-- C7: for every variant, `Display` renders exactly `as_str()`, with no
extra decoration. -/
theorem exchangeId_display_eq_as_str :
    ∀ e : ExchangeId, e.displayString = e.as_str := by
  intro e
  rfl

/-- C8: the default `Connector::ping_interval` is `None`: no custom
application-level ping. -/
theorem connector_ping_interval_default_none :
    Connector.ping_interval = none := by
  rfl

/-- C9: for every variant, the serde `snake_case` wire token equals
`as_str()`, and deserializing that token returns the original variant,
so serialize-then-deserialize is the identity. -/
theorem exchangeId_serde_token_roundtrip :
    ∀ e : ExchangeId,
      e.serializeToken = e.as_str ∧
      ExchangeId.deserializeToken e.serializeToken = some e := by
  decide

/-- C10: `as_str` is strictly order-preserving — the derived declaration
order on `ExchangeId` agrees with lexicographic order on the canonical
strings, so sorting by variant and sorting by identity string agree. -/
theorem exchangeId_ord_agrees_with_as_str_lex :
    ∀ a b : ExchangeId, ExchangeId.lt a b = strLexLt a.as_str b.as_str := by
  decide
